import Mathlib

/-!
Shallow embedding of the checkout-and-settlement core of the mern-haatbazar
backend, namely the functions of `backend/controllers/payment.controller.js`
(`createCheckoutSession`, `checkoutSuccess`, `createNewCoupon`) and of
`backend/controllers/coupon.controller.js` (`validateCoupon`).

Modelling choices:
- JavaScript numbers are modelled as exact rationals (`ℚ`) for prices and as
  integers (`ℤ`) for minor-currency amounts and millisecond timestamps;
  quantities are naturals.  `Math.round` is `⌊x + 1/2⌋` (round half toward
  positive infinity), which is its behaviour on real values.
- The Mongo collections are lists: `DBState` carries the coupon rows and the
  order rows.  `findOne`/`findOneAndUpdate`/`findOneAndDelete` act on the
  first matching element of the list, mirroring the single-document Mongoose
  operations.
- External effects are parameters: the Stripe session id returned by
  `stripe.checkout.sessions.create`, the random `GIFT…` code generated inside
  `createNewCoupon`, and a flag telling whether the gift-coupon `save()`
  resolves or rejects.  `JSON.stringify`/`JSON.parse` of the product snapshot
  is modelled as the identity on the structured value.
- An HTTP handler returns its JSON response as a value of a small result
  type together with the updated database state.
-/

namespace HaatBazar

/-- JavaScript `Math.round`: round half toward positive infinity. -/
def jsRound (x : ℚ) : ℤ := ⌊x + 1/2⌋

/-- A coupon document, per the fields read and written by the controllers:
code, owning user id, discount percentage, expiration timestamp
(milliseconds), active flag. -/
structure Coupon where
  code : String
  userId : Nat
  discountPercentage : ℚ
  expirationDate : ℤ
  isActive : Bool
deriving DecidableEq

/-- A cart line item of the checkout request body (`req.body.products`). -/
structure Product where
  _id : Nat
  name : String
  image : String
  price : ℚ
  quantity : Nat
deriving DecidableEq

/-- One entry of an order's product list, also the shape of the metadata
snapshot `{id, quantity, price}` serialized into the Stripe session. -/
structure OrderItem where
  product : Nat
  quantity : Nat
  price : ℚ
deriving DecidableEq

/-- An order document as built by `checkoutSuccess`. -/
structure Order where
  user : Nat
  products : List OrderItem
  totalAmount : ℚ
  stripeSessionId : String
deriving DecidableEq

/-- The persistent state: the coupon collection and the order collection. -/
structure DBState where
  coupons : List Coupon
  orders : List Order
deriving DecidableEq

/-- A Stripe line item as assembled in `createCheckoutSession` (the
`price_data`/`quantity` object). -/
structure LineItem where
  name : String
  image : String
  unit_amount : ℤ
  quantity : Nat
deriving DecidableEq

/-- The metadata blob attached to the Stripe session: user id, coupon code
(empty string when none was supplied), and the product snapshot. -/
structure SessionMetadata where
  userId : Nat
  couponCode : String
  products : List OrderItem
deriving DecidableEq

/-- The session object returned by `stripe.checkout.sessions.retrieve`:
payment status, total charged in minor units, and the stored metadata. -/
structure StripeSession where
  payment_status : String
  amount_total : ℤ
  metadata : SessionMetadata
deriving DecidableEq

/-- The unit amount of one cart item: `Math.round(product.price * 100)`. -/
def itemAmount (p : Product) : ℤ := jsRound (p.price * 100)

/-- The Stripe line item built from one cart item; `product.quantity || 1`
defaults a zero (falsy) quantity to 1. -/
def mkLineItem (p : Product) : LineItem :=
  { name := p.name, image := p.image, unit_amount := itemAmount p,
    quantity := if p.quantity = 0 then 1 else p.quantity }

/-- The `line_items` array sent to Stripe (`products.map(...)`). -/
def lineItemsOf (products : List Product) : List LineItem :=
  products.map mkLineItem

/-- The running `totalAmount` accumulated by the same `map`:
`Σ Math.round(price×100) × quantity`. -/
def preDiscountTotal (products : List Product) : ℤ :=
  (products.map (fun p => itemAmount p * (p.quantity : ℤ))).sum

/-- The metadata snapshot `products.map(p => ({id, quantity, price}))`. -/
def snapshotOf (products : List Product) : List OrderItem :=
  products.map (fun p => { product := p._id, quantity := p.quantity, price := p.price })

/-- The argument of `stripe.checkout.sessions.create`: the line items and the
metadata snapshot later consumed by settlement. -/
structure GatewayRequest where
  line_items : List LineItem
  metadata : SessionMetadata
deriving DecidableEq

/-- What `createCheckoutSession` sends to the payment gateway. -/
def stripeSessionRequest (userId : Nat) (products : List Product)
    (couponCode : String) : GatewayRequest :=
  { line_items := lineItemsOf products,
    metadata := { userId := userId, couponCode := couponCode,
                  products := snapshotOf products } }

/-- `Coupon.findOne({code, userId, isActive: true})`: first matching row. -/
def findActiveCoupon (coupons : List Coupon) (code : String) (userId : Nat) :
    Option Coupon :=
  coupons.find? (fun c => c.code == code && c.userId == userId && c.isActive)

/-- The coupon lookup of `createCheckoutSession`: only performed when
`couponCode` is truthy (a non-empty string). -/
def couponLookup (st : DBState) (userId : Nat) (couponCode : String) :
    Option Coupon :=
  if couponCode ≠ "" then findActiveCoupon st.coupons couponCode userId else none

/-- `totalAmount -= Math.round(totalAmount * discountPercentage / 100)`. -/
def applyDiscount (total : ℤ) (c : Coupon) : ℤ :=
  total - jsRound ((total : ℚ) * c.discountPercentage / 100)

/-- The `totalAmount` after the optional coupon discount: the discount is
subtracted once when the active-coupon lookup succeeds, else the item sum
stands. -/
def discountedTotal (st : DBState) (userId : Nat) (products : List Product)
    (couponCode : String) : ℤ :=
  match couponLookup st userId couponCode with
  | some c => applyDiscount (preDiscountTotal products) c
  | none => preDiscountTotal products

/-- Modelled from the spec: the Coupon schema (`backend/models/coupon.model.js`)
is not among the provided sources, so the default of the active flag on a
freshly inserted coupon is taken from the spec's coupon lifecycle, which has
gift issuance produce the user's single *active* coupon; hence
`isActive := true`.  The remaining fields follow `createNewCoupon` in
`payment.controller.js`: the randomly generated `GIFT…` code is a parameter,
the discount is fixed at 10, and the expiration is 30 days (in milliseconds)
after issuance time. -/
def mkGiftCoupon (userId : Nat) (code : String) (now : ℤ) : Coupon :=
  { code := code, userId := userId, discountPercentage := 10,
    expirationDate := now + 30 * 24 * 60 * 60 * 1000, isActive := true }

/-- `createNewCoupon(userId)`: `findOneAndDelete({userId})` removes the first
coupon row of the user (if any), then the new gift coupon is saved. -/
def createNewCoupon (st : DBState) (userId : Nat) (code : String) (now : ℤ) :
    DBState :=
  { st with coupons :=
      (st.coupons.eraseP (fun c => c.userId == userId)) ++ [mkGiftCoupon userId code now] }

/-- The JSON body answered by a successful `createCheckoutSession`:
`{id: session.id, totalAmount: totalAmount / 100}`. -/
structure CheckoutResponse where
  id : String
  totalAmount : ℚ
deriving DecidableEq

/-- Outcome of `createCheckoutSession`: 200 with the session id and dollar
total, 400 for an empty products array, or 500 from the catch block. -/
inductive CheckoutResult where
  | ok (resp : CheckoutResponse)
  | badRequest
  | serverError
deriving DecidableEq

/-- `createCheckoutSession` (payment.controller.js lines 16–84).  Parameters
beyond the request: `now` (issuance clock), `sessionId` (returned by Stripe),
`giftCode` (the random code drawn inside `createNewCoupon`), and `giftSaveOk`
(whether the gift coupon's `save()` resolves).  When `totalAmount ≥ 20000`
the gift coupon is issued; the `await createNewCoupon(...)` sits inside the
handler's try block, so a rejected `save()` propagates to the catch, which
answers 500 — the `findOneAndDelete` has already run at that point. -/
def createCheckoutSession (st : DBState) (userId : Nat) (products : List Product)
    (couponCode : String) (now : ℤ) (sessionId : String) (giftCode : String)
    (giftSaveOk : Bool) : CheckoutResult × DBState :=
  if products.isEmpty then (.badRequest, st)
  else if 20000 ≤ discountedTotal st userId products couponCode then
    if giftSaveOk then
      (.ok ⟨sessionId, ((discountedTotal st userId products couponCode : ℤ) : ℚ) / 100⟩,
        createNewCoupon st userId giftCode now)
    else
      (.serverError, { st with coupons := st.coupons.eraseP (fun c => c.userId == userId) })
  else
    (.ok ⟨sessionId, ((discountedTotal st userId products couponCode : ℤ) : ℚ) / 100⟩, st)

/-- `findOneAndUpdate`: rewrite the first row satisfying `p` with `f`. -/
def findOneAndUpdate (cs : List Coupon) (p : Coupon → Bool) (f : Coupon → Coupon) :
    List Coupon :=
  match cs with
  | [] => []
  | c :: rest => if p c then f c :: rest else c :: findOneAndUpdate rest p f

/-- `Coupon.findOneAndUpdate({code, userId}, {isActive: false})` as run by
`checkoutSuccess` (no `isActive` condition in the query). -/
def deactivateCoupon (cs : List Coupon) (code : String) (userId : Nat) :
    List Coupon :=
  findOneAndUpdate cs (fun c => c.code == code && c.userId == userId)
    (fun c => { c with isActive := false })

/-- Outcome of `checkoutSuccess`: 200 carrying the new order (whose identity
stands for the reported `orderId`), or no response at all — the source sends
nothing when the session is not paid. -/
inductive SuccessResult where
  | ok (order : Order)
  | noResponse
deriving DecidableEq

/-- `checkoutSuccess` (payment.controller.js lines 92–137).  `session` is
what `stripe.checkout.sessions.retrieve(sessionId)` returns.  On a paid
session: deactivate the metadata's coupon when the stored code is non-empty
(a truthy string), parse the product snapshot, append a new order, and answer
success; otherwise nothing happens. -/
def checkoutSuccess (st : DBState) (sessionId : String) (session : StripeSession) :
    SuccessResult × DBState :=
  if session.payment_status == "paid" then
    let coupons :=
      if session.metadata.couponCode ≠ "" then
        deactivateCoupon st.coupons session.metadata.couponCode session.metadata.userId
      else st.coupons
    let newOrder : Order :=
      { user := session.metadata.userId, products := session.metadata.products,
        totalAmount := (session.amount_total : ℚ) / 100,
        stripeSessionId := sessionId }
    (.ok newOrder, { coupons := coupons, orders := st.orders ++ [newOrder] })
  else (.noResponse, st)

/-- Outcome of `validateCoupon`: 404 "Coupon not found", 404 "Coupon
expired", or 200 with the code and discount percentage. -/
inductive ValidateResult where
  | notFound
  | expired
  | valid (code : String) (discountPercentage : ℚ)
deriving DecidableEq

/-- `validateCoupon` (coupon.controller.js lines 19–48): look up the first
row matching `{code, userId, isActive: true}`; absent → not found; found with
`expirationDate < now` → set that row's active flag to false, save, answer
expired; otherwise answer valid with no mutation. -/
def validateCoupon (st : DBState) (userId : Nat) (code : String) (now : ℤ) :
    ValidateResult × DBState :=
  match findActiveCoupon st.coupons code userId with
  | none => (.notFound, st)
  | some c =>
    if c.expirationDate < now then
      let coupons :=
        findOneAndUpdate st.coupons
          (fun x => x.code == code && x.userId == userId && x.isActive)
          (fun x => { x with isActive := false })
      (.expired, { st with coupons := coupons })
    else (.valid c.code c.discountPercentage, st)

/-- The coupon rows belonging to one user. -/
def userCoupons (st : DBState) (userId : Nat) : List Coupon :=
  st.coupons.filter (fun c => c.userId == userId)

/-- The active coupon rows belonging to one user. -/
def activeUserCoupons (st : DBState) (userId : Nat) : List Coupon :=
  (userCoupons st userId).filter (fun c => c.isActive)

/-! ### Helper lemmas -/

theorem preDiscountTotal_perm (l1 l2 : List Product) (h : l1.Perm l2) :
    preDiscountTotal l1 = preDiscountTotal l2 :=
  (h.map _).sum_eq

theorem createCheckoutSession_fst (st : DBState) (userId : Nat)
    (products : List Product) (couponCode : String) (now : ℤ) (sid gc : String)
    (hne : products ≠ []) :
    (createCheckoutSession st userId products couponCode now sid gc true).1 =
      .ok ⟨sid, ((discountedTotal st userId products couponCode : ℤ) : ℚ) / 100⟩ := by
  have h : products.isEmpty = false := by
    simpa [List.isEmpty_iff] using hne
  simp only [createCheckoutSession, h, Bool.false_eq_true, if_false]
  split <;> rfl

theorem discountedTotal_of_some (st : DBState) (userId : Nat)
    (products : List Product) (couponCode : String) (c : Coupon)
    (h : couponLookup st userId couponCode = some c) :
    discountedTotal st userId products couponCode =
      applyDiscount (preDiscountTotal products) c := by
  simp only [discountedTotal, h]

theorem discountedTotal_of_none (st : DBState) (userId : Nat)
    (products : List Product) (couponCode : String)
    (h : couponLookup st userId couponCode = none) :
    discountedTotal st userId products couponCode = preDiscountTotal products := by
  simp only [discountedTotal, h]

/-! ### Claim theorems -/

/-- C1: for every non-empty products list, `createCheckoutSession` computes the
pre-discount total as `Σ round(pᵢ×100)×qᵢ` (rounding each unit price to cents
before multiplying by the quantity), a sum invariant under permutation of the
items; when the active-coupon lookup for the requesting user succeeds with
discount `d`, it answers the session id together with
`(T - round(T×d/100)) / 100`, the discount subtracted exactly once; when the
lookup yields nothing it answers `T / 100`. -/
theorem createCheckoutSession_pricing (st : DBState) (userId : Nat)
    (products : List Product) (couponCode : String) (now : ℤ) (sid gc : String)
    (hne : products ≠ []) :
    preDiscountTotal products =
      (products.map (fun p => jsRound (p.price * 100) * (p.quantity : ℤ))).sum ∧
    (∀ l : List Product, l.Perm products →
      preDiscountTotal l = preDiscountTotal products) ∧
    (∀ c : Coupon, couponCode ≠ "" →
      findActiveCoupon st.coupons couponCode userId = some c →
      (createCheckoutSession st userId products couponCode now sid gc true).1 =
        .ok ⟨sid, (((preDiscountTotal products -
          jsRound ((preDiscountTotal products : ℚ) * c.discountPercentage / 100)) : ℤ) : ℚ) / 100⟩) ∧
    (couponLookup st userId couponCode = none →
      (createCheckoutSession st userId products couponCode now sid gc true).1 =
        .ok ⟨sid, ((preDiscountTotal products : ℤ) : ℚ) / 100⟩) := by
  refine ⟨rfl, fun l h => preDiscountTotal_perm l products h, ?_, ?_⟩
  · intro c hcc hfind
    have hl : couponLookup st userId couponCode = some c := by
      simp only [couponLookup, if_pos hcc, hfind]
    rw [createCheckoutSession_fst st userId products couponCode now sid gc hne,
      discountedTotal_of_some st userId products couponCode c hl]
    rfl
  · intro hl
    rw [createCheckoutSession_fst st userId products couponCode now sid gc hne,
      discountedTotal_of_none st userId products couponCode hl]

/-- Witness for C1: the spec's concrete cart `[{price 19.99, qty 2},
{price 5.00, qty 1}]` with an active 10% coupon produces total $40.48. -/
theorem createCheckoutSession_pricing_witness :
    (createCheckoutSession ⟨[⟨"SAVE10", 1, 10, 99999, true⟩], []⟩ 1
      [⟨1, "apple", "i", 1999/100, 2⟩, ⟨2, "rice", "i", 5, 1⟩] "SAVE10" 0
      "sess" "G" true).1 = .ok ⟨"sess", 4048/100⟩ := by
  have h := (createCheckoutSession_pricing ⟨[⟨"SAVE10", 1, 10, 99999, true⟩], []⟩ 1
      [⟨1, "apple", "i", 1999/100, 2⟩, ⟨2, "rice", "i", 5, 1⟩] "SAVE10" 0
      "sess" "G" (by decide)).2.2.1 ⟨"SAVE10", 1, 10, 99999, true⟩ (by decide) (by decide)
  rw [h]
  norm_num [preDiscountTotal, itemAmount, jsRound]

/-- Counterexample to C3: a coupon that expired at time 0 but whose active
flag is still true (lazy expiry never ran) has its discount applied by
`createCheckoutSession` at time 1000: the reported total is not the
undiscounted `preDiscountTotal / 100` — a $100 cart is answered as $90, so an
operation does apply the discount of an expired coupon. -/
theorem expired_active_coupon_discounted :
    (createCheckoutSession ⟨[⟨"OLD10", 1, 10, 0, true⟩], []⟩ 1
        [⟨1, "tv", "i", 100, 1⟩] "OLD10" 1000 "s" "G" true).1 = .ok ⟨"s", 90⟩ ∧
    ((preDiscountTotal [⟨1, "tv", "i", 100, 1⟩] : ℤ) : ℚ) / 100 = 100 ∧
    (0 : ℤ) < 1000 := by
  refine ⟨?_, by norm_num [preDiscountTotal, itemAmount, jsRound], by norm_num⟩
  have hl : couponLookup ⟨[⟨"OLD10", 1, 10, 0, true⟩], []⟩ 1 "OLD10" =
      some ⟨"OLD10", 1, 10, 0, true⟩ := by decide
  rw [createCheckoutSession_fst _ _ _ _ _ _ _ (by decide),
    discountedTotal_of_some _ _ _ _ _ hl]
  norm_num [applyDiscount, preDiscountTotal, itemAmount, jsRound]

/-- C3 amended: at checkout the expiration timestamp is not consulted — the
discount is applied exactly when the `(code, user, active)` lookup succeeds,
so it is withheld whenever no matching coupon has its active flag true; the
expiration bound is enforced only by `validateCoupon`, which reports a coupon
as valid only when it is active and the current time is at most its
expiration timestamp. -/
theorem discount_requires_active_flag_only (st : DBState) (userId : Nat)
    (products : List Product) (couponCode : String) (now : ℤ) (sid gc : String)
    (hne : products ≠ [])
    (hnone : couponLookup st userId couponCode = none) :
    (createCheckoutSession st userId products couponCode now sid gc true).1 =
      .ok ⟨sid, ((preDiscountTotal products : ℤ) : ℚ) / 100⟩ ∧
    (∀ (st2 : DBState) (uid : Nat) (code : String) (n : ℤ) (c : String) (d : ℚ),
      (validateCoupon st2 uid code n).1 = .valid c d →
      ∃ cp : Coupon, findActiveCoupon st2.coupons code uid = some cp ∧
        cp.isActive = true ∧ n ≤ cp.expirationDate ∧
        c = cp.code ∧ d = cp.discountPercentage) := by
  constructor
  · rw [createCheckoutSession_fst st userId products couponCode now sid gc hne,
      discountedTotal_of_none st userId products couponCode hnone]
  · intro st2 uid code n c d hv
    match hfind : findActiveCoupon st2.coupons code uid with
    | none => simp [validateCoupon, hfind] at hv
    | some cp =>
      have hact : cp.isActive = true := by
        have := List.find?_some hfind
        simp only [Bool.and_eq_true] at this
        exact this.2
      by_cases hexp : cp.expirationDate < n
      · simp [validateCoupon, hfind, if_pos hexp] at hv
      · refine ⟨cp, rfl, hact, le_of_not_lt hexp, ?_⟩
        simp only [validateCoupon, hfind, if_neg hexp] at hv
        cases hv
        exact ⟨rfl, rfl⟩

/-- Witness for C3 amended: with no matching active coupon the $20 cart is
charged undiscounted, and a concrete valid validation is backed by an active,
unexpired coupon row. -/
theorem discount_requires_active_flag_only_witness :
    (createCheckoutSession ⟨[], []⟩ 2 [⟨3, "egg", "i", 5, 4⟩] "NOPE" 0 "w" "G" true).1 =
      .ok ⟨"w", 2000/100⟩ := by
  have h := (discount_requires_active_flag_only ⟨[], []⟩ 2 [⟨3, "egg", "i", 5, 4⟩]
      "NOPE" 0 "w" "G" (by decide) (by decide)).1
  rw [h]
  norm_num [preDiscountTotal, itemAmount, jsRound]

/-- Counterexample to C7: a $200 cart reaches the gift-issuance step; when
the gift coupon's save rejects, the checkout answers the 500 of the catch
block instead of the session id and total — the very same request succeeds
when the save resolves, so the gift failure alone failed the checkout. -/
theorem giftFailure_fails_checkout :
    (createCheckoutSession ⟨[], []⟩ 1 [⟨1, "tv", "i", 200, 1⟩] "" 0 "s" "G" false).1 =
      .serverError ∧
    (createCheckoutSession ⟨[], []⟩ 1 [⟨1, "tv", "i", 200, 1⟩] "" 0 "s" "G" true).1 =
      .ok ⟨"s", 200⟩ := by
  have hth : (20000 : ℤ) ≤ discountedTotal ⟨[], []⟩ 1 [⟨1, "tv", "i", 200, 1⟩] "" := by
    rw [discountedTotal_of_none _ _ _ _ (by decide)]
    norm_num [preDiscountTotal, itemAmount, jsRound]
  constructor
  · simp only [createCheckoutSession, List.isEmpty_cons, Bool.false_eq_true, if_false,
      if_pos hth]
  · rw [createCheckoutSession_fst _ _ _ _ _ _ _ (by decide),
      discountedTotal_of_none _ _ _ _ (by decide)]
    norm_num [preDiscountTotal, itemAmount, jsRound]

/-- C7 amended: gift-coupon issuance during checkout is awaited inside the
handler's try block, so it is not fire-and-forget — whenever the
post-discount total reaches the gift threshold and the gift coupon's save
rejects, the checkout request fails with the catch block's server error
instead of returning the session id and total. -/
theorem giftFailure_serverError (st : DBState) (userId : Nat)
    (products : List Product) (couponCode : String) (now : ℤ) (sid gc : String)
    (hne : products ≠ [])
    (hth : 20000 ≤ discountedTotal st userId products couponCode) :
    (createCheckoutSession st userId products couponCode now sid gc false).1 =
      .serverError := by
  have h : products.isEmpty = false := by
    simpa [List.isEmpty_iff] using hne
  simp only [createCheckoutSession, h, Bool.false_eq_true, if_false, if_pos hth]

/-- Witness for C7 amended: a $300 cart with a failing gift save answers 500. -/
theorem giftFailure_serverError_witness :
    (createCheckoutSession ⟨[], []⟩ 2 [⟨1, "pc", "i", 300, 1⟩] "" 0 "w" "G" false).1 =
      .serverError := by
  refine giftFailure_serverError ⟨[], []⟩ 2 [⟨1, "pc", "i", 300, 1⟩] "" 0 "w" "G"
    (by decide) ?_
  rw [discountedTotal_of_none _ _ _ _ (by decide)]
  norm_num [preDiscountTotal, itemAmount, jsRound]

/-- C9: when the gateway reports a payment status other than "paid",
`checkoutSuccess` performs no persistence action: the state is returned
untouched (no Order appended, no coupon changed) and no response is sent. -/
theorem checkoutSuccess_unpaid (st : DBState) (sid : String) (s : StripeSession)
    (h : s.payment_status ≠ "paid") :
    checkoutSuccess st sid s = (.noResponse, st) := by
  simp only [checkoutSuccess]
  rw [if_neg]
  simp only [beq_iff_eq]
  exact h

/-- Witness for C9: an "unpaid" session leaves a non-trivial state as is. -/
theorem checkoutSuccess_unpaid_witness :
    checkoutSuccess ⟨[⟨"SAVE10", 1, 10, 99999, true⟩], []⟩ "cs_w"
        ⟨"unpaid", 4048, ⟨1, "SAVE10", [⟨1, 2, 5⟩]⟩⟩ =
      (.noResponse, ⟨[⟨"SAVE10", 1, 10, 99999, true⟩], []⟩) :=
  checkoutSuccess_unpaid ⟨[⟨"SAVE10", 1, 10, 99999, true⟩], []⟩ "cs_w"
    ⟨"unpaid", 4048, ⟨1, "SAVE10", [⟨1, 2, 5⟩]⟩⟩ (by decide)

/-- C10: a cart item with quantity 0 (outside the quantity ≥ 1 precondition)
is sent to the gateway as a line item with quantity defaulted to 1, while its
contribution to the computed `totalAmount` is 0 — removing it does not change
the total — so whenever its rounded unit price is non-zero, what the gateway
is asked to bill for the item differs from what the item contributes to the
reported total. -/
theorem zeroQuantity_gateway_mismatch (userId : Nat) (couponCode : String)
    (products : List Product) (p : Product) (hp : p ∈ products)
    (hq : p.quantity = 0) :
    mkLineItem p ∈ (stripeSessionRequest userId products couponCode).line_items ∧
    (mkLineItem p).quantity = 1 ∧
    itemAmount p * (p.quantity : ℤ) = 0 ∧
    (∀ l : List Product, preDiscountTotal (p :: l) = preDiscountTotal l) ∧
    (itemAmount p ≠ 0 →
      (mkLineItem p).unit_amount * ((mkLineItem p).quantity : ℤ) ≠
        itemAmount p * (p.quantity : ℤ)) := by
  refine ⟨List.mem_map_of_mem mkLineItem hp, ?_, ?_, ?_, ?_⟩
  · simp [mkLineItem, hq]
  · simp [hq]
  · intro l
    simp [preDiscountTotal, hq]
  · intro hnz
    simp [mkLineItem, hq, hnz]

/-- Witness for C10: a 4-cent item with quantity 0 is billed as one unit of 4
cents by the gateway yet contributes nothing to the reported total. -/
theorem zeroQuantity_gateway_mismatch_witness :
    (mkLineItem ⟨7, "egg", "i", 1/25, 0⟩).quantity = 1 ∧
    (mkLineItem ⟨7, "egg", "i", 1/25, 0⟩).unit_amount *
        (((mkLineItem ⟨7, "egg", "i", 1/25, 0⟩).quantity : Nat) : ℤ) ≠
      itemAmount ⟨7, "egg", "i", 1/25, 0⟩ * ((0 : Nat) : ℤ) := by
  have h := zeroQuantity_gateway_mismatch 1 "" [⟨7, "egg", "i", 1/25, 0⟩]
    ⟨7, "egg", "i", 1/25, 0⟩ (by simp) rfl
  refine ⟨h.2.1, ?_⟩
  have hnz : itemAmount ⟨7, "egg", "i", 1/25, 0⟩ ≠ 0 := by
    norm_num [itemAmount, jsRound]
  exact h.2.2.2.2 hnz

theorem findOneAndUpdate_length (cs : List Coupon) (p : Coupon → Bool)
    (f : Coupon → Coupon) : (findOneAndUpdate cs p f).length = cs.length := by
  induction cs with
  | nil => rfl
  | cons c rest ih =>
    simp only [findOneAndUpdate]
    split
    · simp
    · simp [ih]

theorem findOneAndUpdate_nomatch (cs : List Coupon) (p : Coupon → Bool)
    (f : Coupon → Coupon) (h : ∀ c ∈ cs, p c = false) :
    findOneAndUpdate cs p f = cs := by
  induction cs with
  | nil => rfl
  | cons c rest ih =>
    simp only [findOneAndUpdate]
    rw [if_neg (by simp [h c (List.mem_cons_self c rest)]),
      ih (fun x hx => h x (List.mem_cons_of_mem c hx))]

theorem findOneAndUpdate_get? (cs : List Coupon) (p : Coupon → Bool)
    (f : Coupon → Coupon) (i : Nat) :
    (findOneAndUpdate cs p f).get? i = cs.get? i ∨
    ∃ c, cs.get? i = some c ∧
      (findOneAndUpdate cs p f).get? i = some (f c) ∧ p c = true := by
  induction cs generalizing i with
  | nil => exact Or.inl rfl
  | cons c rest ih =>
    simp only [findOneAndUpdate]
    by_cases hc : p c = true
    · rw [if_pos hc]
      cases i with
      | zero => exact Or.inr ⟨c, rfl, rfl, hc⟩
      | succ j => exact Or.inl rfl
    · rw [if_neg hc]
      cases i with
      | zero => exact Or.inl rfl
      | succ j => simpa using ih j

/-- C4: when the gateway reports the session paid, `checkoutSuccess` answers
success carrying the new order, appends exactly that one Order — owning user
and product snapshot from the metadata, total `amount_total / 100` (minor to
major units), and the session identifier — and, when the metadata's coupon
code is non-empty, updates (without deleting: the row count is unchanged) the
first coupon matching that code and user id to inactive, every other row kept
verbatim, as a no-op when no row matches. -/
theorem checkoutSuccess_paid_spec (st : DBState) (sid : String)
    (s : StripeSession) (hp : s.payment_status = "paid") :
    (checkoutSuccess st sid s).1 =
      .ok { user := s.metadata.userId, products := s.metadata.products,
            totalAmount := (s.amount_total : ℚ) / 100, stripeSessionId := sid } ∧
    (checkoutSuccess st sid s).2.orders =
      st.orders ++ [{ user := s.metadata.userId, products := s.metadata.products,
                      totalAmount := (s.amount_total : ℚ) / 100,
                      stripeSessionId := sid }] ∧
    (s.metadata.couponCode = "" → (checkoutSuccess st sid s).2.coupons = st.coupons) ∧
    ((∀ c ∈ st.coupons,
        ¬(c.code = s.metadata.couponCode ∧ c.userId = s.metadata.userId)) →
      (checkoutSuccess st sid s).2.coupons = st.coupons) ∧
    (checkoutSuccess st sid s).2.coupons.length = st.coupons.length ∧
    ∀ i : Nat,
      (checkoutSuccess st sid s).2.coupons.get? i = st.coupons.get? i ∨
      ∃ c, st.coupons.get? i = some c ∧
        (checkoutSuccess st sid s).2.coupons.get? i =
          some { c with isActive := false } ∧
        c.code = s.metadata.couponCode ∧ c.userId = s.metadata.userId := by
  have hb : (s.payment_status == "paid") = true := by simp [hp]
  have hred : checkoutSuccess st sid s =
      (.ok { user := s.metadata.userId, products := s.metadata.products,
             totalAmount := (s.amount_total : ℚ) / 100, stripeSessionId := sid },
       { coupons :=
           if s.metadata.couponCode ≠ "" then
             deactivateCoupon st.coupons s.metadata.couponCode s.metadata.userId
           else st.coupons,
         orders := st.orders ++ [{ user := s.metadata.userId,
                                   products := s.metadata.products,
                                   totalAmount := (s.amount_total : ℚ) / 100,
                                   stripeSessionId := sid }] }) := by
    simp only [checkoutSuccess, hb, if_true]
  rw [hred]
  by_cases hcc : s.metadata.couponCode = ""
  · rw [if_neg (fun h => h hcc)]
    exact ⟨rfl, rfl, fun _ => rfl, fun _ => rfl, rfl, fun i => Or.inl rfl⟩
  · rw [if_pos hcc]
    refine ⟨rfl, rfl, fun h => absurd h hcc, ?_, ?_, ?_⟩
    · intro hno
      exact findOneAndUpdate_nomatch st.coupons _ _ (fun c hc => by
        have := hno c hc
        simp only [Bool.and_eq_false_iff, beq_eq_false_iff_ne, ne_eq]
        by_cases h1 : c.code = s.metadata.couponCode
        · exact Or.inr (fun h2 => this ⟨h1, h2⟩)
        · exact Or.inl h1)
    · exact findOneAndUpdate_length st.coupons _ _
    · intro i
      rcases findOneAndUpdate_get? st.coupons
          (fun c => c.code == s.metadata.couponCode && c.userId == s.metadata.userId)
          (fun c => { c with isActive := false }) i with heq | ⟨c, hc, heq, hpred⟩
      · exact Or.inl heq
      · simp only [Bool.and_eq_true, beq_iff_eq] at hpred
        exact Or.inr ⟨c, hc, heq, hpred.1, hpred.2⟩

/-- Witness for C4: settling a paid $40.48 session appends the one order
with the metadata's user, snapshot, converted total and session id, and
deactivates the used coupon in place. -/
theorem checkoutSuccess_paid_spec_witness :
    (checkoutSuccess ⟨[⟨"SAVE10", 1, 10, 99999, true⟩], []⟩ "cs_1"
        ⟨"paid", 4048, ⟨1, "SAVE10", [⟨1, 2, 1999/100⟩]⟩⟩).2.orders =
      [{ user := 1, products := [⟨1, 2, 1999/100⟩],
         totalAmount := ((4048 : ℤ) : ℚ) / 100, stripeSessionId := "cs_1" }] ∧
    (checkoutSuccess ⟨[⟨"SAVE10", 1, 10, 99999, true⟩], []⟩ "cs_1"
        ⟨"paid", 4048, ⟨1, "SAVE10", [⟨1, 2, 1999/100⟩]⟩⟩).2.coupons.length = 1 := by
  have h := checkoutSuccess_paid_spec ⟨[⟨"SAVE10", 1, 10, 99999, true⟩], []⟩ "cs_1"
    ⟨"paid", 4048, ⟨1, "SAVE10", [⟨1, 2, 1999/100⟩]⟩⟩ rfl
  exact ⟨h.2.1, h.2.2.2.2.1⟩

theorem pred_false_of_match_false {x : Coupon} {code : String} {uid : Nat}
    (h : ¬((x.code == code && x.userId == uid) = true)) :
    ¬((x.code == code && x.userId == uid && x.isActive) = true) := by
  intro hx
  apply h
  simp only [Bool.and_eq_true] at hx ⊢
  exact hx.1

theorem deactivate_kills_active_find (cs : List Coupon) (code : String) (uid : Nat)
    (hu : (cs.filter (fun x => x.code == code && x.userId == uid)).length ≤ 1) :
    findActiveCoupon (findOneAndUpdate cs
        (fun x => x.code == code && x.userId == uid && x.isActive)
        (fun x => { x with isActive := false })) code uid = none := by
  induction cs with
  | nil => rfl
  | cons c rest ih =>
    by_cases hq : (c.code == code && c.userId == uid) = true
    · have hlen : (rest.filter (fun x => x.code == code && x.userId == uid)).length = 0 := by
        simp only [List.filter_cons, hq, if_true, List.length_cons] at hu
        omega
      have hnil : rest.filter (fun x => x.code == code && x.userId == uid) = [] :=
        List.eq_nil_of_length_eq_zero hlen
      have hrest : ∀ x ∈ rest, ¬((x.code == code && x.userId == uid) = true) :=
        List.filter_eq_nil_iff.mp hnil
      have hfrest : List.find?
          (fun x => x.code == code && x.userId == uid && x.isActive) rest = none :=
        List.find?_eq_none.mpr (fun x hx => pred_false_of_match_false (hrest x hx))
      by_cases ha : c.isActive = true
      · have hp : (c.code == code && c.userId == uid && c.isActive) = true := by
          simp only [Bool.and_eq_true] at hq ⊢
          exact ⟨hq, ha⟩
        simp only [findOneAndUpdate, if_pos hp, findActiveCoupon, List.find?]
        have hhead : (({ c with isActive := false } : Coupon).code == code &&
            ({ c with isActive := false } : Coupon).userId == uid &&
            ({ c with isActive := false } : Coupon).isActive) = false := by simp
        rw [hhead]
        exact hfrest
      · have hp : ¬((c.code == code && c.userId == uid && c.isActive) = true) := by
          intro h
          simp only [Bool.and_eq_true] at h
          exact ha h.2
        have hpf : (c.code == code && c.userId == uid && c.isActive) = false :=
          Bool.eq_false_iff.mpr hp
        simp only [findOneAndUpdate, if_neg hp, findActiveCoupon, List.find?, hpf]
        have := ih (by rw [hnil]; simp)
        simpa only [findActiveCoupon] using this
    · have hp : ¬((c.code == code && c.userId == uid && c.isActive) = true) :=
        pred_false_of_match_false hq
      have hpf : (c.code == code && c.userId == uid && c.isActive) = false :=
        Bool.eq_false_iff.mpr hp
      simp only [findOneAndUpdate, if_neg hp, findActiveCoupon, List.find?, hpf]
      have hqf : (c.code == code && c.userId == uid) = false :=
        Bool.eq_false_iff.mpr hq
      have := ih (by simpa only [List.filter_cons, hqf, Bool.false_eq_true,
        if_false] using hu)
      simpa only [findActiveCoupon] using this

/-- Counterexample to C5: with `now` exactly equal to the expiration
timestamp, the source's strict comparison `expirationDate < now` is false, so
`validateCoupon` answers valid with the coupon's code and discount and
mutates nothing — whereas the claim requires Expired (with deactivation)
whenever `now ≥ expirationDate`. -/
theorem validateCoupon_boundary_valid :
    validateCoupon ⟨[⟨"SAVE10", 1, 10, 100, true⟩], []⟩ 1 "SAVE10" 100 =
      (.valid "SAVE10" 10, ⟨[⟨"SAVE10", 1, 10, 100, true⟩], []⟩) := by
  decide

/-- C5 amended: `validateCoupon` fails with NotFound when no coupon matches
`(code, userId, active = true)`; when a match exists and `now` is *strictly
after* the expiration timestamp it persists the coupon's active flag as false
(an in-place update: row counts and orders untouched) and fails with Expired,
after which re-validating the same code for that user fails with NotFound at
every time; when `now ≤ expirationDate` it succeeds with the coupon's code
and discount percentage and mutates nothing.  (The uniqueness hypothesis
reflects the data model's "code unique per user".) -/
theorem validateCoupon_spec (st : DBState) (userId : Nat) (code : String)
    (now : ℤ)
    (hu : (st.coupons.filter (fun x => x.code == code && x.userId == userId)).length ≤ 1) :
    (findActiveCoupon st.coupons code userId = none →
      validateCoupon st userId code now = (.notFound, st)) ∧
    (∀ c : Coupon, findActiveCoupon st.coupons code userId = some c →
      (now ≤ c.expirationDate →
        validateCoupon st userId code now = (.valid c.code c.discountPercentage, st)) ∧
      (c.expirationDate < now →
        (validateCoupon st userId code now).1 = .expired ∧
        (validateCoupon st userId code now).2.coupons.length = st.coupons.length ∧
        (validateCoupon st userId code now).2.orders = st.orders ∧
        ∀ n2 : ℤ,
          (validateCoupon (validateCoupon st userId code now).2 userId code n2).1 =
            .notFound)) := by
  constructor
  · intro h
    simp only [validateCoupon, h]
  · intro c hfind
    constructor
    · intro hle
      simp only [validateCoupon, hfind]
      rw [if_neg (not_lt.mpr hle)]
    · intro hlt
      have hred : validateCoupon st userId code now =
          (.expired,
            { st with
              coupons :=
                findOneAndUpdate st.coupons
                  (fun x => x.code == code && x.userId == userId && x.isActive)
                  (fun x => { x with isActive := false }) }) := by
        simp only [validateCoupon, hfind, if_pos hlt]
      rw [hred]
      refine ⟨rfl, findOneAndUpdate_length _ _ _, rfl, ?_⟩
      intro n2
      have hnone := deactivate_kills_active_find st.coupons code userId hu
      simp only [validateCoupon, hnone]

/-- Witness for C5 amended: validating a coupon one tick past its expiration
answers Expired, and re-validating it afterwards answers NotFound. -/
theorem validateCoupon_spec_witness :
    (validateCoupon ⟨[⟨"EXP", 1, 10, 50, true⟩], []⟩ 1 "EXP" 100).1 = .expired ∧
    (validateCoupon (validateCoupon ⟨[⟨"EXP", 1, 10, 50, true⟩], []⟩
        1 "EXP" 100).2 1 "EXP" 100).1 = .notFound := by
  have h := (validateCoupon_spec ⟨[⟨"EXP", 1, 10, 50, true⟩], []⟩ 1 "EXP" 100
      (by decide)).2 ⟨"EXP", 1, 10, 50, true⟩ (by decide)
  exact ⟨(h.2 (by decide)).1, (h.2 (by decide)).2.2.2 100⟩

theorem eraseP_filter_nil (cs : List Coupon) (q : Coupon → Bool)
    (h : (cs.filter q).length ≤ 1) : (cs.eraseP q).filter q = [] := by
  induction cs with
  | nil => rfl
  | cons c rest ih =>
    by_cases hc : q c = true
    · rw [List.eraseP_cons_of_pos hc]
      have hlen : (rest.filter q).length = 0 := by
        simp only [List.filter_cons, hc, if_true, List.length_cons] at h
        omega
      exact List.eq_nil_of_length_eq_zero hlen
    · have hcf : q c = false := Bool.eq_false_iff.mpr hc
      rw [List.eraseP_cons_of_neg hc]
      rw [List.filter_cons]
      simp only [hcf, Bool.false_eq_true, if_false]
      exact ih (by simpa only [List.filter_cons, hcf, Bool.false_eq_true, if_false] using h)

theorem userCoupons_createNewCoupon (st : DBState) (userId : Nat) (code : String)
    (now : ℤ) (h : (userCoupons st userId).length ≤ 1) :
    userCoupons (createNewCoupon st userId code now) userId =
      [mkGiftCoupon userId code now] := by
  simp only [userCoupons, createNewCoupon] at h ⊢
  rw [List.filter_append, eraseP_filter_nil st.coupons _ h]
  simp [mkGiftCoupon]

theorem fold_userCoupons (userId : Nat) (calls : List (String × ℤ)) (st : DBState)
    (h : (userCoupons st userId).length ≤ 1) :
    (userCoupons (calls.foldl (fun s pr => createNewCoupon s userId pr.1 pr.2) st)
      userId).length ≤ 1 ∧
    (calls ≠ [] → ∃ code now,
      userCoupons (calls.foldl (fun s pr => createNewCoupon s userId pr.1 pr.2) st)
        userId = [mkGiftCoupon userId code now]) := by
  induction calls generalizing st with
  | nil => exact ⟨h, fun hne => absurd rfl hne⟩
  | cons pr rest ih =>
    simp only [List.foldl_cons]
    have h1 : (userCoupons (createNewCoupon st userId pr.1 pr.2) userId).length ≤ 1 := by
      rw [userCoupons_createNewCoupon st userId pr.1 pr.2 h]
      simp
    refine ⟨(ih (createNewCoupon st userId pr.1 pr.2) h1).1, ?_⟩
    intro _
    by_cases hr : rest = []
    · subst hr
      simp only [List.foldl_nil]
      exact ⟨pr.1, pr.2, userCoupons_createNewCoupon st userId pr.1 pr.2 h⟩
    · exact (ih (createNewCoupon st userId pr.1 pr.2) h1).2 hr

/-- C6: starting from a state where a user has at most one coupon row (the
data model's shape; in particular from an empty store), any sequence of
gift-issuance calls for that user leaves at most one active coupon row for
the user — and after at least one call, exactly one coupon row for the user
has its active flag true (issuance deletes the prior row before inserting the
fresh active one). -/
theorem createNewCoupon_active_unique (st : DBState) (userId : Nat)
    (calls : List (String × ℤ))
    (h : (userCoupons st userId).length ≤ 1) :
    (activeUserCoupons (calls.foldl (fun s pr => createNewCoupon s userId pr.1 pr.2) st)
      userId).length ≤ 1 ∧
    (calls ≠ [] →
      (activeUserCoupons (calls.foldl (fun s pr => createNewCoupon s userId pr.1 pr.2) st)
        userId).length = 1) := by
  obtain ⟨h1, h2⟩ := fold_userCoupons userId calls st h
  constructor
  · exact le_trans (List.length_filter_le _ _) h1
  · intro hne
    obtain ⟨code, now, heq⟩ := h2 hne
    simp only [activeUserCoupons, heq]
    simp [mkGiftCoupon]

/-- Witness for C6: two successive gift issuances for user 1 starting from an
empty store leave exactly one active coupon row for user 1. -/
theorem createNewCoupon_active_unique_witness :
    (activeUserCoupons ([("G1", 0), ("G2", 5)].foldl
        (fun s pr => createNewCoupon s 1 pr.1 pr.2) ⟨[], []⟩) 1).length = 1 := by
  have h := createNewCoupon_active_unique ⟨[], []⟩ 1 [("G1", 0), ("G2", 5)] (by decide)
  exact h.2 (by simp)

/-- C8: when the post-discount total reaches 20000 minor units (the threshold
is inclusive: the test is `20000 ≤ total`), checkout leaves the requesting
user with exactly one coupon row — the freshly inserted gift coupon, any
prior row of the user having been deleted first — carrying the fixed 10%
discount, an expiration 30 days (in milliseconds) after issuance, and an
active flag; when the post-discount total is below 20000 the state is
entirely unchanged: no gift coupon is created. -/
theorem giftCoupon_threshold (st : DBState) (userId : Nat)
    (products : List Product) (couponCode : String) (now : ℤ) (sid gc : String)
    (hne : products ≠ [])
    (hrow : (userCoupons st userId).length ≤ 1) :
    (20000 ≤ discountedTotal st userId products couponCode →
      userCoupons (createCheckoutSession st userId products couponCode now sid gc
          true).2 userId = [mkGiftCoupon userId gc now] ∧
      (mkGiftCoupon userId gc now).discountPercentage = 10 ∧
      (mkGiftCoupon userId gc now).expirationDate = now + 30 * 24 * 60 * 60 * 1000 ∧
      (mkGiftCoupon userId gc now).isActive = true) ∧
    (discountedTotal st userId products couponCode < 20000 →
      (createCheckoutSession st userId products couponCode now sid gc true).2 = st) := by
  have hie : products.isEmpty = false := by simpa [List.isEmpty_iff] using hne
  constructor
  · intro hth
    have hsnd : (createCheckoutSession st userId products couponCode now sid gc true).2 =
        createNewCoupon st userId gc now := by
      simp only [createCheckoutSession, hie, Bool.false_eq_true, if_false,
        if_pos hth, if_true]
    rw [hsnd, userCoupons_createNewCoupon st userId gc now hrow]
    exact ⟨rfl, rfl, rfl, rfl⟩
  · intro hth
    simp only [createCheckoutSession, hie, Bool.false_eq_true, if_false,
      if_neg (not_le.mpr hth)]

/-- Witness for C8: a $200 cart (exactly 20000 minor units) bought at time 7
replaces user 1's old coupon row by the single fresh gift coupon. -/
theorem giftCoupon_threshold_witness :
    userCoupons (createCheckoutSession ⟨[⟨"OLD", 1, 5, 10, true⟩], []⟩ 1
        [⟨1, "tv", "i", 200, 1⟩] "" 7 "s" "GIFTABC" true).2 1 =
      [mkGiftCoupon 1 "GIFTABC" 7] := by
  have h := giftCoupon_threshold ⟨[⟨"OLD", 1, 5, 10, true⟩], []⟩ 1
    [⟨1, "tv", "i", 200, 1⟩] "" 7 "s" "GIFTABC" (by decide) (by decide)
  refine (h.1 ?_).1
  rw [discountedTotal_of_none _ _ _ _ (by decide)]
  norm_num [preDiscountTotal, itemAmount, jsRound]

/-- C2 exhibited on the code: settling the same paid session identifier twice
creates two Order records carrying that identifier — the settlement handler
has no idempotency guard, so the at-most-one-order-per-session invariant the
spec demands does not hold in the source. -/
theorem checkoutSuccess_double_settlement :
    ((checkoutSuccess (checkoutSuccess ⟨[], []⟩ "cs_test_1"
          ⟨"paid", 4048, ⟨1, "", [⟨1, 2, 1999/100⟩]⟩⟩).2 "cs_test_1"
        ⟨"paid", 4048, ⟨1, "", [⟨1, 2, 1999/100⟩]⟩⟩).2.orders.filter
      (fun o => o.stripeSessionId == "cs_test_1")).length = 2 := by
  simp [checkoutSuccess]

end HaatBazar
